import Mathlib

/-!
Verification of the 8bitdo_update repository: a shallow embedding in Lean 4 of
`8bitdo_scraper.py` (the enumeration sweeper) and `8bitdo_updater.py` (the
interactive flash orchestrator), together with proofs and refutations of the
specification claims.

Modelling conventions:
* Python strings are modelled as `List Char` (`PyStr`); the Lean core `String`
  functions are avoided because they do not reduce in the kernel.  `str.lower`
  is modelled with `Char.toLower` (they agree on ASCII, which covers all
  constants used by the programs), `str.strip` with whitespace-dropping at both
  ends, `int(·)` on strings with a sign-and-digits parser.
* JSON numbers are modelled as integers (the API's `type` field is integral).
* Network and subprocess interaction is modelled by oracles supplied as
  function arguments: an HTTP fetch becomes a value of an outcome type, user
  input becomes a list of lines consumed in order.
* A Python crash (an exception that no handler of the program catches) is
  modelled by `Option.none` / a dedicated `raised` outcome.
-/

/-- Python strings, modelled as lists of characters. -/
abbrev PyStr := List Char

/-- `str.lower()` (ASCII-faithful). -/
def pyLower (s : PyStr) : PyStr := s.map Char.toLower

/-- `str.strip()`: remove leading and trailing whitespace. -/
def pyStrip (s : PyStr) : PyStr :=
  ((s.dropWhile Char.isWhitespace).reverse.dropWhile Char.isWhitespace).reverse

/-- Parse a non-empty all-digit string as a natural number. -/
def digitsToNat : PyStr → Option Nat
  | [] => none
  | l => if l.all Char.isDigit then
           some (l.foldl (fun acc c => acc * 10 + (c.toNat - '0'.toNat)) 0)
         else none

/-- Python `int(s)` for a string argument: surrounding whitespace is ignored,
an optional sign is allowed; any other shape raises `ValueError` (`none`). -/
def pyToInt (s : PyStr) : Option Int :=
  match pyStrip s with
  | '-' :: rest => (digitsToNat rest).map (fun n => -(n : Int))
  | '+' :: rest => (digitsToNat rest).map (fun n => (n : Int))
  | t => (digitsToNat t).map (fun n => (n : Int))

/-- Python `needle in hay` for strings: substring containment. -/
def pyContains (needle hay : PyStr) : Bool :=
  hay.tails.any (fun t => needle.isPrefixOf t)

/-- Index of the first occurrence of `sep` in `l`, if any. -/
def findSub (sep l : PyStr) : Option Nat :=
  (List.range (l.length + 1)).findSome?
    (fun i => if sep.isPrefixOf (l.drop i) then some i else none)

/-- Fuelled worker for `pySplit`. -/
def pySplitAux (sep : PyStr) : PyStr → Nat → List PyStr
  | l, 0 => [l]
  | l, fuel + 1 =>
    match findSub sep l with
    | none => [l]
    | some i => l.take i :: pySplitAux sep (l.drop (i + sep.length)) fuel

/-- Python `s.split(sep)` for a non-empty separator (the fuel `l.length`
suffices because each step consumes at least `sep.length ≥ 1` characters). -/
def pySplit (sep l : PyStr) : List PyStr := pySplitAux sep l l.length

/-- Stable insertion of `x` into a `le`-sorted list: `x` is placed after every
element `y` with `le y x` (so after all elements with an equal key). -/
def insertSorted {α : Type} (le : α → α → Bool) (x : α) : List α → List α
  | [] => [x]
  | y :: ys => if le y x then y :: insertSorted le x ys else x :: y :: ys

/-- Stable sort by the boolean preorder `le`, inserting elements in their
original order.  Python's `sorted` is a stable sort, and for a total preorder
every stable sort produces the same output, so this models
`sorted(xs, key=...)` exactly. -/
def sortBy {α : Type} (le : α → α → Bool) (xs : List α) : List α :=
  xs.foldl (fun acc x => insertSorted le x acc) []

namespace Scraper

/-- JSON values (`json.loads` output); numbers are modelled as integers. -/
inductive Json where
  | null
  | bool (b : Bool)
  | num (n : Int)
  | str (s : PyStr)
  | arr (elts : List Json)
  | obj (fields : List (PyStr × Json))

/-- Python truthiness of a JSON value. -/
def truthy : Json → Bool
  | .null => false
  | .bool b => b
  | .num n => decide (n ≠ 0)
  | .str s => !s.isEmpty
  | .arr l => !l.isEmpty
  | .obj f => !f.isEmpty

/-- `dict.get(k)` on a parsed JSON object (for duplicate keys the last
occurrence wins, as in `json.loads`). -/
def pyGet (fields : List (PyStr × Json)) (k : PyStr) : Option Json :=
  fields.reverse.lookup k

/-- Python `int(v)` on a JSON value: integers pass through, booleans map to
0/1, numeric strings are parsed, anything else raises (`none`). -/
def pyInt : Json → Option Int
  | .num n => some n
  | .bool b => some (if b then 1 else 0)
  | .str s => pyToInt s
  | _ => none

/-- Outcome of one call to `fetch` (lines 7-14): a caught transient error
(`URLError`/`HTTPError`/`TimeoutError`/`socket.timeout`), a body that parses
as JSON, or a body that makes `json.loads` raise `json.JSONDecodeError` —
which is *not* in the except tuple of `fetch_with_retries`. -/
inductive FetchResult where
  | netErr
  | ok (v : Json)
  | jsonExn

/-- How one call of `fetch_with_retries` ends: a parsed value is returned,
`None` is returned after the retries are exhausted (the warn line 22 is
printed exactly in this case), or an uncaught exception propagates. -/
inductive RetryOutcome where
  | ok (v : Json)
  | failed
  | raised

/-- Observable trace of one `fetch_with_retries` call: its outcome, the number
of `fetch` attempts made, and the back-off sleeps performed (line 24), in
order. -/
structure RetryTrace where
  outcome : RetryOutcome
  attempts : Nat
  waits : List ℚ

/-- The loop body of `fetch_with_retries` (lines 16-24), with `oracle k` the
result of the `fetch` call on overall attempt `k`.  `fuel` is the number of
retries still allowed; the source's `attempt == retries` test holds exactly
when `fuel = 0` (the function is entered with `attempt = 0`,
`fuel = retries`). -/
def fwrGo (oracle : Nat → FetchResult) (w : ℚ) (attempt : Nat) : Nat → RetryTrace
  | 0 =>
    match oracle attempt with
    | .ok v => ⟨.ok v, 1, []⟩
    | .jsonExn => ⟨.raised, 1, []⟩
    | .netErr => ⟨.failed, 1, []⟩
  | fuel + 1 =>
    match oracle attempt with
    | .ok v => ⟨.ok v, 1, []⟩
    | .jsonExn => ⟨.raised, 1, []⟩
    | .netErr =>
      let rest := fwrGo oracle w (attempt + 1) fuel
      ⟨rest.outcome, rest.attempts + 1, w * 2 ^ attempt :: rest.waits⟩

/-- `fetch_with_retries(t, beta, timeout, retries, wait)` (lines 16-24), over
an oracle giving each attempt's `fetch` result. -/
def fetch_with_retries (oracle : Nat → FetchResult) (w : ℚ) (retries : Nat) :
    RetryTrace :=
  fwrGo oracle w 0 retries

/-- Default `retries=2` of `fetch_with_retries`; `main` (line 39) never
overrides it. -/
def RETRIES : Nat := 2

/-- Default `wait=0.2` of `fetch_with_retries`; `main` never overrides it. -/
def WAIT : ℚ := 1 / 5

/-- `seen.add((name, int(typ)))` (line 46): a Python `set` modelled as a
duplicate-free list (set iteration order is unspecified in Python; the model
fixes insertion order, which is observable only in the relative order of rows
whose sort keys tie). -/
def insertPair (p : PyStr × Int) (seen : List (PyStr × Int)) :
    List (PyStr × Int) :=
  if p ∈ seen then seen else seen ++ [p]

/-- The body of `for item in (data.get("list") or [])` (lines 42-46).  `none`
models a Python crash: `item.get` on a non-dict (`AttributeError`), `.strip()`
on a truthy non-string `fileName` (`AttributeError`), or `int(typ)` raising. -/
def processItem (seen : List (PyStr × Int)) (item : Json) :
    Option (List (PyStr × Int)) :=
  match item with
  | .obj fields =>
    let rawName : Option PyStr :=
      match pyGet fields (['f','i','l','e','N','a','m','e']) with
      | none => some []
      | some v => if truthy v then
                    match v with
                    | .str s => some s
                    | _ => none
                  else some []
    match rawName with
    | none => none
    | some rn =>
      let name := pyStrip rn
      let typ : Option Json :=
        match pyGet fields (['t','y','p','e']) with
        | some .null => none
        | x => x
      match typ with
      | none => some seen
      | some tv =>
        if name = [] then some seen
        else
          match pyInt tv with
          | some n => some (insertPair (name, n) seen)
          | none => none
  | _ => none

/-- The item loop of lines 42-46, threading `seen`; `none` propagates a crash. -/
def processItems (seen : List (PyStr × Int)) :
    List Json → Option (List (PyStr × Int))
  | [] => some seen
  | it :: rest =>
    match processItem seen it with
    | none => none
    | some s => processItems s rest

/-- Processing of one truthy response `data` (lines 42-46).  `none` models a
crash: `.get` on a truthy non-dict, or iterating a truthy non-list `list`
field (iterating a number/bool raises `TypeError` at once; a non-empty string
or dict yields non-dict items that crash at `item.get`). -/
def processData (seen : List (PyStr × Int)) (data : Json) :
    Option (List (PyStr × Int)) :=
  match data with
  | .obj fields =>
    let L : Json :=
      match pyGet fields (['l','i','s','t']) with
      | some v => if truthy v then v else .arr []
      | none => .arr []
    match L with
    | .arr items => processItems seen items
    | _ => none
  | _ => none

/-- Observable state of the sweep loop of `main` (lines 36-47): the
accumulated pairs, the Type values warned about on stderr (line 22), and the
Type values after which the courtesy `time.sleep(args.sleep)` (line 47) ran. -/
structure SweepState where
  seen : List (PyStr × Int)
  warns : List Int
  sleeps : List Int
deriving DecidableEq

/-- Outcome of `fetch_with_retries` for Type value `t` under environment
`env`, with the defaults `main` uses. -/
def fwOutcome (env : Int → Nat → FetchResult) (t : Int) : RetryOutcome :=
  (fetch_with_retries (env t) WAIT RETRIES).outcome

/-- One iteration of the sweep loop (lines 38-47) for Type value `t`.  A
failed fetch returns `None`: `if not data: continue` then skips both the item
loop and the courtesy sleep.  Falsy parsed data is skipped the same way.
`none` models an uncaught exception (`json.JSONDecodeError` from `fetch`, or a
crash while processing the items). -/
def step (env : Int → Nat → FetchResult) (t : Int) (st : SweepState) :
    Option SweepState :=
  match fwOutcome env t with
  | .raised => none
  | .failed => some { st with warns := st.warns ++ [t] }
  | .ok v =>
    if truthy v then
      match processData st.seen v with
      | none => none
      | some s => some { seen := s, warns := st.warns, sleeps := st.sleeps ++ [t] }
    else some st

/-- The sweep loop over a list of Type values; `none` aborts the whole sweep
(an uncaught exception reaches the process boundary, no file is written). -/
def sweepAux (env : Int → Nat → FetchResult) :
    List Int → SweepState → Option SweepState
  | [], st => some st
  | t :: ts, st =>
    match step env t st with
    | none => none
    | some st' => sweepAux env ts st'

/-- Python `range(start, stop)` over integers. -/
def pyRange (start stop : Int) : List Int :=
  (List.range (stop - start).toNat).map (fun i => start + i)

/-- The sort key of line 49: `(x[0].lower(), x[1])`, compared
lexicographically (strings by code point, as in Python). -/
def rowKey (p : PyStr × Int) : Lex (PyStr × Int) := toLex (pyLower p.1, p.2)

/-- The comparison used by `sorted(seen, key=lambda x: (x[0].lower(), x[1]))`. -/
def rowLe (a b : PyStr × Int) : Bool := decide (rowKey a ≤ rowKey b)

/-- Line 49: `rows = sorted(seen, key=...)` (stable sort by `rowLe`). -/
def sortRows (seen : List (PyStr × Int)) : List (PyStr × Int) :=
  sortBy rowLe seen

/-- The written output file (lines 51-54): one header row, then the sorted
rows in order (the CSV writer renders each pair on its own line). -/
structure SweepOut where
  header : List PyStr
  rows : List (PyStr × Int)
  warns : List Int
  sleeps : List Int
deriving DecidableEq

/-- The header row written by line 53: `["fileName", "type"]`. -/
def csvHeader : List PyStr :=
  [['f','i','l','e','N','a','m','e'], ['t','y','p','e']]

/-- `main` of the scraper (lines 26-56) for a given range, over an environment
mapping each Type value and attempt number to a fetch result.  `none` models
the process dying on an uncaught exception before writing the file. -/
def mainSweep (env : Int → Nat → FetchResult) (start maxv : Int) :
    Option SweepOut :=
  match sweepAux env (pyRange start (maxv + 1)) ⟨[], [], []⟩ with
  | none => none
  | some st =>
    some { header := csvHeader,
           rows := sortRows st.seen,
           warns := st.warns,
           sleeps := st.sleeps }

/-- How a top-level run of `main()` ends before the interpreter exits. -/
inductive MainOutcome where
  | completed (code : Int)
  | interrupted
deriving DecidableEq

/-- Final process behaviour. -/
inductive ProcResult where
  | exited (code : Int)
  | uncaughtExn
deriving DecidableEq

/-- The scraper's `__main__` guard (lines 58-59): it wraps `main()` in no
handler, so a `KeyboardInterrupt` propagates as an uncaught exception. -/
def scraperTop : MainOutcome → ProcResult
  | .completed c => .exited c
  | .interrupted => .uncaughtExn

end Scraper

namespace Updater

/-- One entry of the `GAMEPADS` catalog (lines 15-33): display name and the
integer `Type` code sent to the API. -/
structure Gamepad where
  name : PyStr
  type : Int
deriving DecidableEq

/-- The fixed `GAMEPADS` mapping, menu key to entry (lines 15-33). -/
def GAMEPADS : List (PyStr × Gamepad) :=
  [ (['1'], ⟨['A','r','c','a','d','e',' ','S','t','i','c','k'], 34⟩),
    (['2'], ⟨['A','r','c','a','d','e',' ','S','t','i','c','k',' ','R','e','c','e','i','v','e','r'], 35⟩),
    (['3'], ⟨['F','3','0',' ','G','a','m','e','P','a','d'], 2⟩),
    (['4'], ⟨['F','3','0',' ','A','r','c','a','d','e',' ','S','t','i','c','k'], 5⟩),
    (['5'], ⟨['F','3','0',' ','P','r','o'], 1⟩),
    (['6'], ⟨['L','i','t','e',' ','G','a','m','e','P','a','d'], 28⟩),
    (['7'], ⟨['M','3','0'], 23⟩),
    (['8'], ⟨['N','3','0',' ','G','a','m','e','P','a','d'], 2⟩),
    (['9'], ⟨['N','3','0',' ','N','S',' ','G','a','m','e','P','a','d'], 18⟩),
    (['1','0'], ⟨['N','3','0',' ','P','r','o'], 1⟩),
    (['1','1'], ⟨['N','3','0',' ','P','r','o',' ','2'], 13⟩),
    (['1','2'], ⟨['P','r','o',' ','2'], 33⟩),
    (['1','3'], ⟨['P','r','o',' ','2',' ','W','i','r','e','d'], 37⟩),
    (['1','4'], ⟨['S','F','3','0',' ','P','r','o'], 9⟩),
    (['1','5'], ⟨['S','N','3','0',' ','G','a','m','e','P','a','d'], 3⟩),
    (['1','6'], ⟨['S','N','3','0',' ','P','r','o','+'], 25⟩),
    (['1','7'], ⟨['S','N','3','0',' ','P','r','o'], 9⟩) ]

/-- `select_gamepad` (lines 54-60): consume input lines until one, stripped,
is a key of `GAMEPADS`; `none` models blocking forever on an exhausted input
script. -/
def select_gamepad : List PyStr → Option (Gamepad × List PyStr)
  | [] => none
  | s :: rest =>
    match GAMEPADS.lookup (pyStrip s) with
    | some g => some (g, rest)
    | none => select_gamepad rest

/-- An item of the API's firmware list, as the orchestrator reads it
(lines 94-99, 122): only the fields it consumes are modelled; a missing
`filePathName` is `none`. -/
structure Firmware where
  version : PyStr
  filePathName : Option PyStr
deriving DecidableEq

/-- Result of the `requests.post` + `raise_for_status` + `.json()` sequence of
`fetch_firmware_list` (lines 72-75): either a caught `requests.RequestException`
(with its message), or a parsed body with its `msgState`, optional `error`
text, and `list` field (a missing `list` key and an empty list coincide in
this typed model, as both yield an empty firmware list). -/
inductive ApiResult where
  | exn (msg : PyStr)
  | ok (msgState : Int) (error : Option PyStr) (list : List Firmware)
deriving DecidableEq

/-- Messages the orchestrator prints that the verification observes;
constructors carry the dynamic parts.  Decorative output (banners, listings,
progress lines) is not tracked. -/
inductive Msg where
  | fwupdMissing
  | errorFromApi (err : Option PyStr)
  | errorFetching (e : PyStr)
  | failedFetchExiting
  | exiting
  | noFilePath
  | downloadError (e : PyStr)
  | failedDownloadExiting
  | errorRunningFwupdmgr
  | errorParsingFwupdmgr
  | noGamepadFound
  | couldNotFindGamepad
  | updateCancelled
  | flashOk
  | flashFailedCode (code : Int)
  | fwupdtoolNotFound
  | removedFile
  | errorRemovingFile
  | updateCompleted
  | updateFailed
deriving DecidableEq

/-- `fetch_firmware_list` (lines 63-84): returns the firmware list, or `None`
after printing the cause (API `msgState != 1`, or a request exception). -/
def fetch_firmware_list (r : ApiResult) : Option (List Firmware) × List Msg :=
  match r with
  | .exn e => (none, [.errorFetching e])
  | .ok ms err l =>
    if ms ≠ 1 then (none, [.errorFromApi err]) else (some l, [])

/-- `select_firmware` (lines 104-117): consume input lines; `'q'` (lowered)
quits, a valid 1-based index selects, anything else re-prompts.  Outer `none`
models blocking forever on an exhausted input script. -/
def select_firmware (l : List Firmware) :
    List PyStr → Option (Option Firmware × List PyStr)
  | [] => none
  | s :: rest =>
    let choice := pyStrip s
    if pyLower choice = ['q'] then some (none, rest)
    else
      match pyToInt choice with
      | none => select_firmware l rest
      | some n =>
        let idx := n - 1
        if h : 0 ≤ idx ∧ idx.toNat < l.length then
          some (some (l.get ⟨idx.toNat, h.2⟩), rest)
        else select_firmware l rest

/-- Result of the `requests.get` + write in `download_firmware`
(lines 132-143): success, or a caught `requests.RequestException`. -/
inductive DlResult where
  | ok
  | exn (msg : PyStr)
deriving DecidableEq

/-- `Path(p).name`: the final path segment. -/
def lastSegment (p : PyStr) : PyStr :=
  (pySplit ['/'] p).getLastD p

/-- `download_firmware` (lines 120-143): returns the local filename on
success, `None` on a missing/empty `filePathName` or a download error; also
reports how many HTTP GET requests were issued. -/
def download_firmware (fw : Firmware) (dl : DlResult) :
    Option PyStr × Nat × List Msg :=
  match fw.filePathName with
  | none => (none, 0, [.noFilePath])
  | some p =>
    if p = [] then (none, 0, [.noFilePath])
    else
      match dl with
      | .ok => (some (lastSegment p), 1, [])
      | .exn e => (none, 1, [.downloadError e])

/-- A device entry of the parsed `fwupdmgr get-devices --json` output
(lines 161-166): the fields the orchestrator reads, `none` when the key is
absent. -/
structure Device where
  vendor : Option PyStr
  deviceId : Option PyStr
deriving DecidableEq

/-- Line 163: `'8bitdo' in vendor or '8bit' in vendor` on the lowered vendor
string. -/
def vendorMatches (vendor : PyStr) : Bool :=
  let v := pyLower vendor
  pyContains ['8','b','i','t','d','o'] v || pyContains ['8','b','i','t'] v

/-- The device loop of lines 161-172: the first vendor-matching entry's
`DeviceId` (which may itself be absent), or `none` when no entry matches. -/
def findDevice : List Device → Option (Option PyStr)
  | [] => none
  | d :: ds =>
    if vendorMatches (d.vendor.getD []) then some d.deviceId else findDevice ds

/-- The separator `'Device ID:'` of the text fallback (line 203). -/
def devIdSep : PyStr := ['D','e','v','i','c','e',' ','I','D',':']

/-- The inner window scan of lines 202-205: the first line with index in
`[lo, hi)` containing `'Device ID:'` yields the stripped text after the
separator (up to its next occurrence, per `split(...)[1]`). -/
def windowScan (lines : List PyStr) (lo hi : Nat) : Option PyStr :=
  (List.range (hi - lo)).findSome? (fun k =>
    let lj := lines.getD (lo + k) []
    if pyContains devIdSep lj then
      some (pyStrip ((pySplit devIdSep lj).getD 1 []))
    else none)

/-- The line scan of lines 199-209: for each line containing `'8bitdo'`
(lowered), scan the window `[max(0, i-5), min(len, i+10))`; a non-empty
extracted identifier is returned (an empty one is falsy and the scan
continues). -/
def fallbackScan (lines : List PyStr) : Option PyStr :=
  (List.range lines.length).findSome? (fun i =>
    if pyContains ['8','b','i','t','d','o'] (pyLower (lines.getD i [])) then
      match windowScan lines (i - 5) (min lines.length (i + 10)) with
      | some s => if s = [] then none else some s
      | none => none
    else none)

/-- `get_device_id_fallback` (lines 186-212): `none` input models the second
`fwupdmgr` call raising `CalledProcessError`; otherwise its stdout is split
into lines and scanned. -/
def get_device_id_fallback : Option PyStr → Option PyStr
  | none => none
  | some out => fallbackScan (pySplit ['\n'] out)

/-- Result of the `fwupdmgr get-devices --json` subprocess in
`get_gamepad_device_id`: the call raises `CalledProcessError`, its stdout
fails to parse as JSON (carrying the text-mode fallback's stdout, `none` if
that second call raises too), or it parses into a device list
(`devices.get('Devices', [])` folded in). -/
inductive DevEnum where
  | procErr
  | parseErr (fallbackOut : Option PyStr)
  | ok (devices : List Device)

/-- `get_gamepad_device_id` (lines 146-183). -/
def get_gamepad_device_id (d : DevEnum) : Option PyStr × List Msg :=
  match d with
  | .procErr => (none, [.errorRunningFwupdmgr])
  | .parseErr fb => (get_device_id_fallback fb, [.errorParsingFwupdmgr])
  | .ok devices =>
    match findDevice devices with
    | some devId => (devId, [])
    | none => (none, [.noGamepadFound])

/-- `flash_firmware` (lines 215-242): `none` models `fwupdtool` missing
(`FileNotFoundError`), otherwise the tool's exit code decides success. -/
def flash_firmware (flashExit : Option Int) : Bool × List Msg :=
  match flashExit with
  | none => (false, [.fwupdtoolNotFound])
  | some c => if c = 0 then (true, [.flashOk]) else (false, [.flashFailedCode c])

/-- Observable effect of one `cleanup_firmware_file` call. -/
structure CleanupResult where
  removeAttempted : Bool
  removed : Bool
  prints : List Msg
  rest : List PyStr
deriving DecidableEq

/-- `cleanup_firmware_file` (lines 259-267): any answer other than `'y'`
(stripped, lowered) attempts `os.remove`; an `OSError` (`removeOk = false`)
is reported and non-fatal.  `none` models blocking on an exhausted input
script. -/
def cleanup_firmware_file (removeOk : Bool) :
    List PyStr → Option CleanupResult
  | [] => none
  | s :: rest =>
    if pyLower (pyStrip s) ≠ ['y'] then
      if removeOk then some ⟨true, true, [.removedFile], rest⟩
      else some ⟨true, false, [.errorRemovingFile], rest⟩
    else some ⟨false, false, [], rest⟩

/-- How the orchestrator process ends: a `sys.exit` code, or blocked forever
on input (the model's stand-in for a prompt the script never answers). -/
inductive ProcOutcome where
  | exit (code : Int)
  | blocked
deriving DecidableEq

/-- Observable trace of one orchestrator run. -/
structure Trace where
  outcome : ProcOutcome
  prints : List Msg
  apiCalls : Nat
  downloadCalls : Nat
  flashCalls : Nat
  cleanupCalls : Nat
  removeAttempts : Nat
deriving DecidableEq

/-- The orchestrator's external world: whether the `fwupdmgr --version`
preflight succeeds, the stdin script, the API response as a function of the
requested Type code and beta flag, the download result, the device
enumeration, the flash tool's exit code (`none` = tool missing), and whether
`os.remove` succeeds. -/
structure Env where
  fwupdOk : Bool
  inputs : List PyStr
  api : Int → Bool → ApiResult
  download : DlResult
  devices : DevEnum
  flash : Option Int
  removeOk : Bool

/-- Effects accumulated by a run of `main` before its outcome is known. -/
structure Acc where
  prints : List Msg
  apiCalls : Nat
  downloadCalls : Nat
  flashCalls : Nat
  cleanupCalls : Nat
  removeAttempts : Nat
deriving DecidableEq

/-- A run that blocks forever at a prompt. -/
def blockedT (acc : Acc) : Trace :=
  ⟨.blocked, acc.prints, acc.apiCalls, acc.downloadCalls, acc.flashCalls,
   acc.cleanupCalls, acc.removeAttempts⟩

/-- A run that reaches `sys.exit(code)` (or falls off the end of `main` with
`code = 0`). -/
def exitT (code : Int) (acc : Acc) : Trace :=
  ⟨.exit code, acc.prints, acc.apiCalls, acc.downloadCalls, acc.flashCalls,
   acc.cleanupCalls, acc.removeAttempts⟩

/-- A `cleanup_firmware_file` call followed by termination: prints `trailing`
and exits with `code` (lines 318-319, 325-326, 332-340). -/
def finishCleanup (env : Env) (inp : List PyStr) (acc : Acc) (code : Int)
    (trailing : List Msg) : Trace :=
  match cleanup_firmware_file env.removeOk inp with
  | none => blockedT { acc with cleanupCalls := acc.cleanupCalls + 1 }
  | some cr =>
    exitT code
      { acc with prints := acc.prints ++ cr.prints ++ trailing,
                 cleanupCalls := acc.cleanupCalls + 1,
                 removeAttempts :=
                   acc.removeAttempts + if cr.removeAttempted then 1 else 0 }

/-- Steps 7-9 of `main` (lines 321-340): flash confirmation, flash, cleanup. -/
def stageConfirm (env : Env) (inp : List PyStr) (acc : Acc) : Trace :=
  match inp with
  | [] => blockedT acc
  | confirmAns :: in5 =>
    if pyLower (pyStrip confirmAns) ≠ ['y'] then
      finishCleanup env in5
        { acc with prints := acc.prints ++ [.updateCancelled] } 0 []
    else
      let fl := flash_firmware env.flash
      let acc1 := { acc with prints := acc.prints ++ fl.2,
                             flashCalls := acc.flashCalls + 1 }
      if fl.1 then finishCleanup env in5 acc1 0 [.updateCompleted]
      else finishCleanup env in5 acc1 1 [.updateFailed]

/-- Step 6 of `main` (lines 314-319) and onward: device discovery.  Note
line 316 `if not device_id`: both a missing and an empty device identifier
take the not-found path. -/
def stageDevice (env : Env) (inp : List PyStr) (acc : Acc) : Trace :=
  let dev := get_gamepad_device_id env.devices
  let acc1 := { acc with prints := acc.prints ++ dev.2 }
  let devFalsy := match dev.1 with
                  | none => true
                  | some s => s = []
  if devFalsy then
    finishCleanup env inp
      { acc1 with prints := acc1.prints ++ [.couldNotFindGamepad] } 1 []
  else stageConfirm env inp acc1

/-- Steps 4-5 of `main` (lines 303-311) and onward: download, instructions
prompt (which consumes one input line), then device discovery. -/
def stageDownload (env : Env) (inp : List PyStr) (acc : Acc) (fw : Firmware) :
    Trace :=
  let dl := download_firmware fw env.download
  let acc1 := { acc with prints := acc.prints ++ dl.2.2,
                         downloadCalls := acc.downloadCalls + dl.2.1 }
  match dl.1 with
  | none => exitT 1 { acc1 with prints := acc1.prints ++ [.failedDownloadExiting] }
  | some _ =>
    match inp with
    | [] => blockedT acc1
    | _ :: in4 => stageDevice env in4 acc1

/-- Steps 2-3 of `main` (lines 287-301) and onward, entered with the
firmware-list fetch already performed: a `None` or empty list is a hard
failure (exit 1); otherwise the user selects an entry or quits cleanly. -/
def afterFetch (env : Env) (inp : List PyStr) (acc : Acc)
    (fetched : Option (List Firmware) × List Msg) : Trace :=
  let acc1 := { acc with prints := acc.prints ++ fetched.2, apiCalls := acc.apiCalls + 1 }
  match fetched.1 with
  | none => exitT 1 { acc1 with prints := acc1.prints ++ [.failedFetchExiting] }
  | some l =>
    if l.isEmpty then
      exitT 1 { acc1 with prints := acc1.prints ++ [.failedFetchExiting] }
    else
      match select_firmware l inp with
      | none => blockedT acc1
      | some (none, _) => exitT 0 { acc1 with prints := acc1.prints ++ [.exiting] }
      | some (some fw, in3) => stageDownload env in3 acc1 fw

/-- The empty effect accumulator. -/
def acc0 : Acc := ⟨[], 0, 0, 0, 0, 0⟩

/-- `main` of the updater (lines 270-340): preflight, gamepad selection, beta
prompt, then the fetch and the later stages. -/
def updaterMain (env : Env) : Trace :=
  if ¬ env.fwupdOk then
    exitT 1 { acc0 with prints := [.fwupdMissing] }
  else
    match select_gamepad env.inputs with
    | none => blockedT acc0
    | some (gp, in1) =>
      match in1 with
      | [] => blockedT acc0
      | betaAns :: in2 =>
        let includeBeta := pyLower (pyStrip betaAns) = ['y']
        afterFetch env in2 acc0 (fetch_firmware_list (env.api gp.type includeBeta))

/-- The updater's `__main__` guard (lines 343-348): `KeyboardInterrupt` is
caught, a message is printed, and the process exits with code 0. -/
def updaterTop : Scraper.MainOutcome → Scraper.ProcResult
  | .completed c => .exited c
  | .interrupted => .exited 0

end Updater

/-! ### Properties of the stable insertion sort -/

theorem insertSorted_perm {α : Type} (le : α → α → Bool) (x : α) :
    ∀ l : List α, (insertSorted le x l).Perm (x :: l)
  | [] => List.Perm.refl _
  | y :: ys => by
    simp only [insertSorted]
    by_cases h : le y x = true
    · rw [if_pos h]
      exact ((insertSorted_perm le x ys).cons y).trans (List.Perm.swap x y ys)
    · rw [if_neg h]

theorem foldlInsert_perm {α : Type} (le : α → α → Bool) :
    ∀ (xs acc : List α),
      (xs.foldl (fun a x => insertSorted le x a) acc).Perm (acc ++ xs)
  | [], acc => by simp
  | x :: xs, acc => by
    simp only [List.foldl_cons]
    refine ((foldlInsert_perm le xs (insertSorted le x acc)).trans ?_).trans
      List.perm_middle.symm
    exact ((insertSorted_perm le x acc).append_right xs)

theorem sortBy_perm {α : Type} (le : α → α → Bool) (xs : List α) :
    (sortBy le xs).Perm xs := by
  simpa [sortBy] using foldlInsert_perm le xs []

theorem insertSorted_pairwise {α : Type} (le : α → α → Bool)
    (htrans : ∀ a b c, le a b = true → le b c = true → le a c = true)
    (htot : ∀ a b, (le a b || le b a) = true) (x : α) :
    ∀ {l : List α}, l.Pairwise (fun a b => le a b = true) →
      (insertSorted le x l).Pairwise (fun a b => le a b = true) := by
  intro l
  induction l with
  | nil => intro _; simp [insertSorted]
  | cons y ys ih =>
    intro h
    rw [List.pairwise_cons] at h
    simp only [insertSorted]
    by_cases hyx : le y x = true
    · rw [if_pos hyx, List.pairwise_cons]
      refine ⟨fun z hz => ?_, ih h.2⟩
      rcases List.mem_cons.mp (((insertSorted_perm le x ys).mem_iff).mp hz) with
        hz1 | hz1
      · exact hz1 ▸ hyx
      · exact h.1 z hz1
    · rw [if_neg hyx, List.pairwise_cons, List.pairwise_cons]
      have hxy : le x y = true := by
        have := htot y x
        simp only [Bool.or_eq_true] at this
        rcases this with h1 | h1
        · exact absurd h1 hyx
        · exact h1
      refine ⟨fun z hz => ?_, h.1, h.2⟩
      rcases List.mem_cons.mp hz with hz1 | hz1
      · exact hz1 ▸ hxy
      · exact htrans x y z hxy (h.1 z hz1)

theorem sortBy_pairwise {α : Type} (le : α → α → Bool)
    (htrans : ∀ a b c, le a b = true → le b c = true → le a c = true)
    (htot : ∀ a b, (le a b || le b a) = true) (xs : List α) :
    (sortBy le xs).Pairwise (fun a b => le a b = true) := by
  suffices h : ∀ (ys acc : List α), acc.Pairwise (fun a b => le a b = true) →
      (ys.foldl (fun a x => insertSorted le x a) acc).Pairwise
        (fun a b => le a b = true) by
    exact h xs [] (List.Pairwise.nil)
  intro ys
  induction ys with
  | nil => intro acc h; simpa using h
  | cons x ys ih =>
    intro acc h
    simp only [List.foldl_cons]
    exact ih _ (insertSorted_pairwise le htrans htot x h)

namespace Scraper

theorem rowLe_trans (a b c : PyStr × Int) (h1 : rowLe a b = true)
    (h2 : rowLe b c = true) : rowLe a c = true := by
  simp only [rowLe, decide_eq_true_eq] at *
  exact le_trans h1 h2

theorem rowLe_total (a b : PyStr × Int) : (rowLe a b || rowLe b a) = true := by
  simp only [rowLe]
  rcases le_total (rowKey a) (rowKey b) with h | h <;> simp [h]

/-- The rows produced by line 49 are sorted by the Python sort key. -/
theorem sortRows_pairwise (seen : List (PyStr × Int)) :
    (sortRows seen).Pairwise (fun a b => rowLe a b = true) :=
  sortBy_pairwise rowLe rowLe_trans rowLe_total seen

theorem sortRows_perm (seen : List (PyStr × Int)) : (sortRows seen).Perm seen :=
  sortBy_perm rowLe seen

end Scraper

namespace Scraper

/-! ### Properties of the retry loop -/

theorem fwrGo_allfail (oracle : Nat → FetchResult) (w : ℚ)
    (h : ∀ k, oracle k = .netErr) :
    ∀ (a fuel : Nat), (fwrGo oracle w a fuel).outcome = .failed
  | a, 0 => by simp [fwrGo, h a]
  | a, fuel + 1 => by
    simp only [fwrGo, h a]
    exact fwrGo_allfail oracle w h (a + 1) fuel

theorem fwrGo_not_raised (oracle : Nat → FetchResult) (w : ℚ)
    (h : ∀ k, oracle k ≠ .jsonExn) :
    ∀ (a fuel : Nat), (fwrGo oracle w a fuel).outcome ≠ .raised
  | a, 0 => by
    cases h1 : oracle a with
    | netErr => simp [fwrGo, h1]
    | ok v => simp [fwrGo, h1]
    | jsonExn => exact absurd h1 (h a)
  | a, fuel + 1 => by
    cases h1 : oracle a with
    | netErr =>
      simp only [fwrGo, h1]
      exact fwrGo_not_raised oracle w h (a + 1) fuel
    | ok v => simp [fwrGo, h1]
    | jsonExn => exact absurd h1 (h a)

theorem fwrGo_ok_attempt (oracle : Nat → FetchResult) (w : ℚ) :
    ∀ (a fuel : Nat) (v : Json), (fwrGo oracle w a fuel).outcome = .ok v →
      ∃ k, oracle k = .ok v
  | a, 0, v => by
    cases h1 : oracle a with
    | netErr => simp [fwrGo, h1]
    | ok u =>
      intro h2
      simp only [fwrGo, h1] at h2
      cases h2
      exact ⟨a, h1⟩
    | jsonExn => simp [fwrGo, h1]
  | a, fuel + 1, v => by
    cases h1 : oracle a with
    | netErr =>
      simp only [fwrGo, h1]
      exact fwrGo_ok_attempt oracle w (a + 1) fuel v
    | ok u =>
      intro h2
      simp only [fwrGo, h1] at h2
      cases h2
      exact ⟨a, h1⟩
    | jsonExn => simp [fwrGo, h1]

theorem fwrGo_attempts_le (oracle : Nat → FetchResult) (w : ℚ) :
    ∀ (a fuel : Nat), (fwrGo oracle w a fuel).attempts ≤ fuel + 1
  | a, 0 => by cases h1 : oracle a <;> simp [fwrGo, h1]
  | a, fuel + 1 => by
    cases h1 : oracle a with
    | netErr =>
      simp only [fwrGo, h1]
      exact Nat.succ_le_succ (fwrGo_attempts_le oracle w (a + 1) fuel)
    | ok v => simp [fwrGo, h1]
    | jsonExn => simp [fwrGo, h1]

theorem fwrGo_waits_schedule (oracle : Nat → FetchResult) (w : ℚ) :
    ∀ (a fuel : Nat), ∃ m, m ≤ fuel ∧
      (fwrGo oracle w a fuel).waits =
        (List.range m).map (fun i => w * 2 ^ (a + i))
  | a, 0 => by cases h1 : oracle a <;> exact ⟨0, by simp [fwrGo, h1]⟩
  | a, fuel + 1 => by
    cases h1 : oracle a with
    | netErr =>
      obtain ⟨m, hm, hw⟩ := fwrGo_waits_schedule oracle w (a + 1) fuel
      refine ⟨m + 1, Nat.succ_le_succ hm, ?_⟩
      simp only [fwrGo, h1, hw, List.range_succ_eq_map, List.map_cons,
        List.map_map]
      refine congrArg₂ List.cons (by simp) ?_
      apply List.map_congr_left
      intro i _
      simp only [Function.comp_apply]
      have he : a + 1 + i = a + Nat.succ i := by omega
      rw [he]
    | ok v => exact ⟨0, by simp [fwrGo, h1]⟩
    | jsonExn => exact ⟨0, by simp [fwrGo, h1]⟩

/-- Environment in which every request fails with a caught transient error. -/
def envAllFail : Int → Nat → FetchResult := fun _ _ => .netErr

/-- Environment in which every response body is not valid JSON. -/
def envBadJson : Int → Nat → FetchResult := fun _ _ => .jsonExn

/-- Whether the courtesy sleep of line 47 runs in the iteration for Type value
`t`: exactly when `fetch_with_retries` returned a truthy value. -/
def sleepApplied (env : Int → Nat → FetchResult) (t : Int) : Bool :=
  match fwOutcome env t with
  | .ok v => truthy v
  | _ => false

theorem sweepAux_sleeps (env : Int → Nat → FetchResult) :
    ∀ (ts : List Int) (st a : SweepState), sweepAux env ts st = some a →
      a.sleeps = st.sleeps ++ ts.filter (fun t => sleepApplied env t)
  | [], st, a, h => by
    simp only [sweepAux, Option.some.injEq] at h
    subst h
    simp
  | t :: ts, st, a, h => by
    simp only [sweepAux] at h
    cases hstep : step env t st with
    | none => rw [hstep] at h; exact absurd h (by simp)
    | some st' =>
      rw [hstep] at h
      have ih := sweepAux_sleeps env ts st' a h
      cases ho : fwOutcome env t with
      | raised => simp [step, ho] at hstep
      | failed =>
        simp only [step, ho, Option.some.injEq] at hstep
        subst hstep
        rw [ih]
        simp [List.filter_cons, sleepApplied, ho]
      | ok v =>
        cases htr : truthy v with
        | true =>
          cases hpd : processData st.seen v with
          | none => simp [step, ho, htr, hpd] at hstep
          | some s1 =>
            simp [step, ho, htr, hpd] at hstep
            subst hstep
            rw [ih]
            simp [List.filter_cons, sleepApplied, ho, htr]
        | false =>
          simp [step, ho, htr] at hstep
          subst hstep
          rw [ih]
          simp [List.filter_cons, sleepApplied, ho, htr]

end Scraper

/-! ### Claim theorems: scraper retry, backoff, crash and interrupt claims -/

/-- Claim C4: for every request made by the sweeper with base wait `w` and
configured retry maximum `r`, the wait applied before retry attempt `k`
(1-based; index `k-1` in the wait list) equals `w * 2^(k-1)`, and at most `r`
retries are performed after the initial attempt, so at most `r+1` attempts in
total. -/
theorem claim_C4_backoff_bounds (oracle : Nat → Scraper.FetchResult) (w : ℚ)
    (retries : Nat) :
    (Scraper.fetch_with_retries oracle w retries).attempts ≤ retries + 1 ∧
    ∃ m, m ≤ retries ∧
      (Scraper.fetch_with_retries oracle w retries).waits =
        (List.range m).map (fun k => w * 2 ^ k) := by
  constructor
  · exact Scraper.fwrGo_attempts_le oracle w 0 retries
  · obtain ⟨m, hm, hw⟩ := Scraper.fwrGo_waits_schedule oracle w 0 retries
    exact ⟨m, hm, by simpa using hw⟩

/-- Claim C2 (code bug): a response body that is not valid JSON raises
`json.JSONDecodeError`, which is not in the except tuple of
`fetch_with_retries` and is caught nowhere else, so the sweep crashes instead
of treating the value like a network failure: with a bad body for Type 0 over
the range [0, 0] the sweep aborts with no output written. -/
theorem claim_C2_invalid_json_crashes :
    Scraper.mainSweep Scraper.envBadJson 0 0 = none := by decide

/-- Claim C9 counterexample: the claim says both tools turn a keyboard
interrupt into a clean exit with code 0; the scraper's `__main__` guard
(lines 58-59) has no handler, so an interrupt there is an uncaught exception,
not an exit with code 0. -/
theorem claim_C9_counterexample :
    Scraper.scraperTop .interrupted ≠ .exited 0 := by decide

/-- Claim C9 (amended): the orchestrator catches a keyboard interrupt at top
level and terminates with exit code 0 (lines 343-348); the sweeper has no
top-level handler, so a keyboard interrupt terminates it as an uncaught
exception (stack trace), not a zero exit. -/
theorem claim_C9_interrupt_behaviour :
    Updater.updaterTop .interrupted = .exited 0 ∧
    Scraper.scraperTop .interrupted = .uncaughtExn := by decide

namespace Scraper

/-- Inversion of a successful `mainSweep` run. -/
theorem mainSweep_some {env : Int → Nat → FetchResult} {start maxv : Int}
    {out : SweepOut} (h : mainSweep env start maxv = some out) :
    ∃ st, sweepAux env (pyRange start (maxv + 1)) ⟨[], [], []⟩ = some st ∧
      out = ⟨csvHeader, sortRows st.seen, st.warns, st.sleeps⟩ := by
  unfold mainSweep at h
  cases hs : sweepAux env (pyRange start (maxv + 1)) ⟨[], [], []⟩ with
  | none => rw [hs] at h; cases h
  | some st =>
    rw [hs] at h
    simp only [Option.some.injEq] at h
    exact ⟨st, rfl, h.symm⟩

/-! ### Duplicate-freeness of the accumulator -/

theorem insertPair_nodup (p : PyStr × Int) {s : List (PyStr × Int)}
    (h : s.Nodup) : (insertPair p s).Nodup := by
  unfold insertPair
  by_cases hp : p ∈ s
  · simpa [hp] using h
  · simp [hp, List.nodup_append, h]

theorem processItem_shape {s s' : List (PyStr × Int)} {it : Json}
    (h : processItem s it = some s') :
    s' = s ∨ ∃ q, s' = insertPair q s := by
  cases it with
  | obj fields =>
    simp only [processItem] at h
    repeat' split at h
    all_goals try (cases h)
    all_goals first
      | exact Or.inl rfl
      | exact Or.inr ⟨_, rfl⟩
  | null => cases h
  | bool b => cases h
  | num n => cases h
  | str a => cases h
  | arr l => cases h

theorem processItem_nodup {s s' : List (PyStr × Int)} {it : Json}
    (h : processItem s it = some s') (hn : s.Nodup) : s'.Nodup := by
  rcases processItem_shape h with h1 | ⟨q, h1⟩
  · exact h1 ▸ hn
  · exact h1 ▸ insertPair_nodup q hn

theorem processItems_nodup :
    ∀ {items : List Json} {s s' : List (PyStr × Int)},
      processItems s items = some s' → s.Nodup → s'.Nodup := by
  intro items
  induction items with
  | nil =>
    intro s s' h hn
    simp only [processItems, Option.some.injEq] at h
    exact h ▸ hn
  | cons it rest ih =>
    intro s s' h hn
    simp only [processItems] at h
    cases h1 : processItem s it with
    | none => rw [h1] at h; cases h
    | some s1 =>
      rw [h1] at h
      exact ih h (processItem_nodup h1 hn)

theorem processData_nodup {s s' : List (PyStr × Int)} {v : Json}
    (h : processData s v = some s') (hn : s.Nodup) : s'.Nodup := by
  cases v with
  | obj fields =>
    simp only [processData] at h
    split at h
    · exact processItems_nodup h hn
    · cases h
  | null => cases h
  | bool b => cases h
  | num n => cases h
  | str a => cases h
  | arr l => cases h

theorem step_nodup {env : Int → Nat → FetchResult} {t : Int}
    {st st' : SweepState} (h : step env t st = some st')
    (hn : st.seen.Nodup) : st'.seen.Nodup := by
  cases ho : fwOutcome env t with
  | raised => simp [step, ho] at h
  | failed =>
    simp [step, ho] at h
    subst h
    exact hn
  | ok v =>
    cases htr : truthy v with
    | true =>
      cases hpd : processData st.seen v with
      | none => simp [step, ho, htr, hpd] at h
      | some s1 =>
        simp [step, ho, htr, hpd] at h
        subst h
        exact processData_nodup hpd hn
    | false =>
      simp [step, ho, htr] at h
      subst h
      exact hn

theorem sweepAux_nodup (env : Int → Nat → FetchResult) :
    ∀ {ts : List Int} {st a : SweepState}, sweepAux env ts st = some a →
      st.seen.Nodup → a.seen.Nodup := by
  intro ts
  induction ts with
  | nil =>
    intro st a h hn
    simp only [sweepAux, Option.some.injEq] at h
    exact h ▸ hn
  | cons t rest ih =>
    intro st a h hn
    simp only [sweepAux] at h
    cases h1 : step env t st with
    | none => rw [h1] at h; cases h
    | some st1 =>
      rw [h1] at h
      exact ih h (step_nodup h1 hn)

end Scraper

/-! ### Claim theorems: scraper sleep placement, sorting and deduplication -/

/-- Claim C3 counterexample: the claim says the courtesy delay runs in every
iteration regardless of success or failure.  Over the range [0, 0] with a
persistently failing Type 0, the sweep performs one iteration but zero
courtesy sleeps. -/
theorem claim_C3_counterexample :
    ∃ out, Scraper.mainSweep Scraper.envAllFail 0 0 = some out ∧
      out.sleeps.length ≠ (Scraper.pyRange 0 (0 + 1)).length := by
  exact ⟨⟨Scraper.csvHeader, [], [0], []⟩, by decide, by decide⟩

/-- Claim C3 (amended): the courtesy delay of line 47 runs exactly after the
iterations whose fetch produced a truthy value; an iteration whose request
failed (or whose parsed response is falsy) skips the delay via the
`if not data: continue` of lines 40-41. -/
theorem claim_C3_sleep_after_success (env : Int → Nat → Scraper.FetchResult)
    (start maxv : Int) (out : Scraper.SweepOut)
    (h : Scraper.mainSweep env start maxv = some out) :
    out.sleeps = (Scraper.pyRange start (maxv + 1)).filter
      (fun t => Scraper.sleepApplied env t) := by
  obtain ⟨st, hs, hout⟩ := Scraper.mainSweep_some h
  have h2 := Scraper.sweepAux_sleeps env _ _ st hs
  rw [hout]
  simpa using h2

/-- Witness for claim C3's amended theorem at a concrete input. -/
theorem claim_C3_sleep_after_success_witness :
    ∃ out, Scraper.mainSweep Scraper.envAllFail 0 0 = some out ∧
      out.sleeps = (Scraper.pyRange 0 (0 + 1)).filter
        (fun t => Scraper.sleepApplied Scraper.envAllFail t) := by
  refine ⟨⟨Scraper.csvHeader, [], [0], []⟩, by decide, ?_⟩
  exact claim_C3_sleep_after_success Scraper.envAllFail 0 0 _ (by decide)

/-- Claim C5: for every set of discovered pairs accumulated by a sweep, the
rows written to the output file are sorted by the key (case-lowered filename,
numeric type) ascending, and they are preceded by exactly one two-column
header row `fileName, type`. -/
theorem claim_C5_sorted_output (env : Int → Nat → Scraper.FetchResult)
    (start maxv : Int) (out : Scraper.SweepOut)
    (h : Scraper.mainSweep env start maxv = some out) :
    out.header = Scraper.csvHeader ∧
    out.rows.Pairwise (fun a b => Scraper.rowLe a b = true) := by
  obtain ⟨st, _, hout⟩ := Scraper.mainSweep_some h
  rw [hout]
  exact ⟨rfl, Scraper.sortRows_pairwise st.seen⟩

/-- Witness for claim C5's theorem at a concrete input. -/
theorem claim_C5_sorted_output_witness :
    ∃ out, Scraper.mainSweep Scraper.envAllFail 0 0 = some out ∧
      out.header = Scraper.csvHeader ∧
      out.rows.Pairwise (fun a b => Scraper.rowLe a b = true) := by
  refine ⟨⟨Scraper.csvHeader, [], [0], []⟩, by decide, ?_⟩
  exact claim_C5_sorted_output Scraper.envAllFail 0 0 _ (by decide)

/-- Claim C6: adding an already-present pair to the accumulator leaves it
unchanged, and the rows of the written output table contain no duplicate
pairs. -/
theorem claim_C6_dedup :
    (∀ (p : PyStr × Int) (s : List (PyStr × Int)), p ∈ s →
      Scraper.insertPair p s = s) ∧
    ∀ (env : Int → Nat → Scraper.FetchResult) (start maxv : Int)
      (out : Scraper.SweepOut), Scraper.mainSweep env start maxv = some out →
        out.rows.Nodup := by
  constructor
  · intro p s hp
    simp [Scraper.insertPair, hp]
  · intro env start maxv out h
    obtain ⟨st, hs, hout⟩ := Scraper.mainSweep_some h
    have hseen : st.seen.Nodup := Scraper.sweepAux_nodup env hs (by simp)
    rw [hout]
    exact (Scraper.sortRows_perm st.seen).symm.nodup hseen

/-- Witness for claim C6's theorem at concrete inputs. -/
theorem claim_C6_dedup_witness :
    Scraper.insertPair (['a'], 1) [(['a'], 1)] = [(['a'], 1)] ∧
    ∃ out, Scraper.mainSweep Scraper.envAllFail 0 0 = some out ∧
      out.rows.Nodup := by
  refine ⟨claim_C6_dedup.1 _ _ (by decide), ?_⟩
  refine ⟨⟨Scraper.csvHeader, [], [0], []⟩, by decide, ?_⟩
  exact claim_C6_dedup.2 Scraper.envAllFail 0 0 _ (by decide)

namespace Scraper

/-- An environment is benign when no fetch attempt yields an invalid-JSON
body (which `fetch_with_retries` would not catch) and every truthy parsed
value can be processed without a crash. -/
def Benign (env : Int → Nat → FetchResult) : Prop :=
  ∀ t k, env t k ≠ .jsonExn ∧
    ∀ (v : Json) (s : List (PyStr × Int)),
      env t k = .ok v → truthy v = true → (processData s v).isSome

theorem step_some {env : Int → Nat → FetchResult} (hb : Benign env)
    (t : Int) (st : SweepState) : ∃ st', step env t st = some st' := by
  cases ho : fwOutcome env t with
  | raised =>
    exact absurd ho
      (fwrGo_not_raised (env t) WAIT (fun k => (hb t k).1) 0 RETRIES)
  | failed =>
    exact ⟨{ st with warns := st.warns ++ [t] }, by simp [step, ho]⟩
  | ok v =>
    cases htr : truthy v with
    | false => exact ⟨st, by simp [step, ho, htr]⟩
    | true =>
      obtain ⟨k, hk⟩ := fwrGo_ok_attempt (env t) WAIT 0 RETRIES v ho
      have hsome := (hb t k).2 v st.seen hk htr
      cases hpd : processData st.seen v with
      | none => rw [hpd] at hsome; cases hsome
      | some s1 =>
        exact ⟨{ seen := s1, warns := st.warns, sleeps := st.sleeps ++ [t] },
          by simp [step, ho, htr, hpd]⟩

theorem step_congr {env : Int → Nat → FetchResult} {t : Int}
    {st1 st2 a1 a2 : SweepState} (h1 : step env t st1 = some a1)
    (h2 : step env t st2 = some a2) (hseen : st1.seen = st2.seen)
    (hsleep : st1.sleeps = st2.sleeps) :
    a1.seen = a2.seen ∧ a1.sleeps = a2.sleeps := by
  cases ho : fwOutcome env t with
  | raised => simp [step, ho] at h1
  | failed =>
    simp [step, ho] at h1 h2
    subst h1
    subst h2
    exact ⟨hseen, hsleep⟩
  | ok v =>
    cases htr : truthy v with
    | false =>
      simp [step, ho, htr] at h1 h2
      subst h1
      subst h2
      exact ⟨hseen, hsleep⟩
    | true =>
      cases hpd1 : processData st1.seen v with
      | none => simp [step, ho, htr, hpd1] at h1
      | some s1 =>
        have hpd2 : processData st2.seen v = some s1 := hseen ▸ hpd1
        simp [step, ho, htr, hpd1] at h1
        simp [step, ho, htr, hpd2] at h2
        subst h1
        subst h2
        exact ⟨rfl, by simp [hsleep]⟩

theorem step_allfail {env : Int → Nat → FetchResult} {t : Int}
    (hf : ∀ k, env t k = .netErr) (st : SweepState) :
    step env t st = some { st with warns := st.warns ++ [t] } := by
  have ho : fwOutcome env t = .failed := fwrGo_allfail (env t) WAIT hf 0 RETRIES
  simp [step, ho]

theorem step_warns {env : Int → Nat → FetchResult} {t : Int}
    {st a : SweepState} (h : step env t st = some a) :
    ∃ ex, a.warns = st.warns ++ ex := by
  cases ho : fwOutcome env t with
  | raised => simp [step, ho] at h
  | failed =>
    simp [step, ho] at h
    subst h
    exact ⟨[t], rfl⟩
  | ok v =>
    cases htr : truthy v with
    | false =>
      simp [step, ho, htr] at h
      subst h
      exact ⟨[], by simp⟩
    | true =>
      cases hpd : processData st.seen v with
      | none => simp [step, ho, htr, hpd] at h
      | some s1 =>
        simp [step, ho, htr, hpd] at h
        subst h
        exact ⟨[], by simp⟩

theorem sweepAux_warns_mono {env : Int → Nat → FetchResult} :
    ∀ {ts : List Int} {st a : SweepState} {x : Int},
      sweepAux env ts st = some a → x ∈ st.warns → x ∈ a.warns := by
  intro ts
  induction ts with
  | nil =>
    intro st a x h hx
    simp only [sweepAux, Option.some.injEq] at h
    exact h ▸ hx
  | cons t ts ih =>
    intro st a x h hx
    simp only [sweepAux] at h
    cases h1 : step env t st with
    | none => rw [h1] at h; cases h
    | some st1 =>
      rw [h1] at h
      obtain ⟨ex, hex⟩ := step_warns h1
      exact ih h (by rw [hex]; exact List.mem_append_left ex hx)

theorem sweepAux_filter {env : Int → Nat → FetchResult} {t0 : Int}
    (hb : Benign env) (hf : ∀ k, env t0 k = .netErr) :
    ∀ (ts : List Int) (st1 st2 : SweepState), st1.seen = st2.seen →
      st1.sleeps = st2.sleeps →
      ∃ a b, sweepAux env ts st1 = some a ∧
        sweepAux env (ts.filter (fun t => t ≠ t0)) st2 = some b ∧
        a.seen = b.seen ∧ a.sleeps = b.sleeps := by
  intro ts
  induction ts with
  | nil =>
    intro st1 st2 hs hl
    exact ⟨st1, st2, rfl, rfl, hs, hl⟩
  | cons t ts ih =>
    intro st1 st2 hs hl
    by_cases ht : t = t0
    · subst ht
      have hstep := step_allfail hf st1
      obtain ⟨a, b, ha, hb2, h3, h4⟩ :=
        ih { st1 with warns := st1.warns ++ [t] } st2 hs hl
      refine ⟨a, b, ?_, ?_, h3, h4⟩
      · simp only [sweepAux, hstep]
        exact ha
      · simpa [List.filter_cons] using hb2
    · obtain ⟨a1, ha1⟩ := step_some hb t st1
      obtain ⟨a2, ha2⟩ := step_some hb t st2
      obtain ⟨hs1, hl1⟩ := step_congr ha1 ha2 hs hl
      obtain ⟨a, b, ha, hb2, h3, h4⟩ := ih a1 a2 hs1 hl1
      refine ⟨a, b, ?_, ?_, h3, h4⟩
      · simp only [sweepAux, ha1]
        exact ha
      · rw [List.filter_cons, if_pos (by simp [ht] : decide (t ≠ t0) = true)]
        simp only [sweepAux, ha2]
        exact hb2

theorem sweepAux_mem_warns {env : Int → Nat → FetchResult} {t0 : Int}
    (hf : ∀ k, env t0 k = .netErr) :
    ∀ {ts : List Int} {st a : SweepState}, t0 ∈ ts →
      sweepAux env ts st = some a → t0 ∈ a.warns := by
  intro ts
  induction ts with
  | nil => intro st a hmem; cases hmem
  | cons t ts ih =>
    intro st a hmem h
    simp only [sweepAux] at h
    cases h1 : step env t st with
    | none => rw [h1] at h; cases h
    | some st1 =>
      rw [h1] at h
      by_cases ht : t = t0
      · subst ht
        rw [step_allfail hf st] at h1
        injection h1 with h1
        subst h1
        exact sweepAux_warns_mono h (by simp)
      · rcases List.mem_cons.mp hmem with he | he
        · exact absurd he.symm ht
        · exact ih he h

end Scraper

/-! ### Claim theorem: a persistently failing Type value is isolated -/

/-- Claim C1: in a benign environment (no invalid-JSON bodies, no
crash-inducing payloads), a Type value `t0` in the range whose every fetch
attempt fails with a caught transient error does not halt the sweep: the run
completes and writes the output file, `t0` is logged to the diagnostic
stream, and the accumulated rows equal those of the same sweep with `t0`
removed from the range — `t0` contributes no results. -/
theorem claim_C1_failed_type_isolated (env : Int → Nat → Scraper.FetchResult)
    (start maxv t0 : Int) (hb : Scraper.Benign env)
    (hf : ∀ k, env t0 k = .netErr)
    (hmem : t0 ∈ Scraper.pyRange start (maxv + 1)) :
    ∃ out st, Scraper.mainSweep env start maxv = some out ∧
      t0 ∈ out.warns ∧
      Scraper.sweepAux env
        ((Scraper.pyRange start (maxv + 1)).filter (fun t => t ≠ t0))
        ⟨[], [], []⟩ = some st ∧
      out.rows = Scraper.sortRows st.seen := by
  obtain ⟨a, b, ha, hb2, hseen, -⟩ :=
    Scraper.sweepAux_filter hb hf (Scraper.pyRange start (maxv + 1))
      ⟨[], [], []⟩ ⟨[], [], []⟩ rfl rfl
  refine ⟨⟨Scraper.csvHeader, Scraper.sortRows a.seen, a.warns, a.sleeps⟩, b,
    ?_, ?_, hb2, by rw [hseen]⟩
  · unfold Scraper.mainSweep
    rw [ha]
  · exact Scraper.sweepAux_mem_warns hf hmem ha

/-- Witness for claim C1's theorem at a concrete input: every Type value of
the range [0, 1] fails persistently; the sweep still completes with both
values warned and an empty row set. -/
theorem claim_C1_failed_type_isolated_witness :
    ∃ out st, Scraper.mainSweep Scraper.envAllFail 0 1 = some out ∧
      (0 : Int) ∈ out.warns ∧
      Scraper.sweepAux Scraper.envAllFail
        ((Scraper.pyRange 0 (1 + 1)).filter (fun t => t ≠ 0))
        ⟨[], [], []⟩ = some st ∧
      out.rows = Scraper.sortRows st.seen := by
  refine claim_C1_failed_type_isolated Scraper.envAllFail 0 1 0 ?_ ?_ ?_
  · intro t k
    exact ⟨fun h => Scraper.FetchResult.noConfusion h,
      fun v s h => absurd h (fun h2 => Scraper.FetchResult.noConfusion h2)⟩
  · intro k
    rfl
  · decide

namespace Updater

theorem findDevice_none {ds : List Device}
    (h : ∀ d ∈ ds, vendorMatches (d.vendor.getD []) = false) :
    findDevice ds = none := by
  induction ds with
  | nil => rfl
  | cons d ds ih =>
    simp only [findDevice, h d (List.mem_cons_self d ds), Bool.false_eq_true,
      if_false]
    exact ih (fun x hx => h x (List.mem_cons_of_mem d hx))

/-- `stageDevice` when device discovery yields no identifier: report, offer
cleanup, exit 1. -/
theorem stageDevice_notfound (env : Env) (inp : List PyStr) (acc : Acc)
    (msgs : List Msg) (h : get_gamepad_device_id env.devices = (none, msgs)) :
    stageDevice env inp acc =
      finishCleanup env inp
        { acc with prints := (acc.prints ++ msgs) ++ [.couldNotFindGamepad] }
        1 [] := by
  simp [stageDevice, h]

/-- A firmware entry used by the concrete claim environments. -/
def fwX : Firmware := ⟨['1','.','0'], some ['/','f','w','/','x','.','d','a','t']⟩

/-- A matching device entry used by the concrete claim environments. -/
def dev8 : Device := ⟨some ['8','B','i','t','D','o'], some ['a','b','c']⟩

/-- The stdin script of the concrete claim environments: gamepad `1`, no
beta, firmware `1`, Enter at the instructions, `y` to flash, `y` to keep. -/
def baseInputs : List PyStr := [['1'], ['n'], ['1'], [], ['y'], ['y']]

/-- Concrete run for claim C7, parametric in the API response fields. -/
def c7Env (ms : Int) (err : Option PyStr) (l : List Firmware) : Env :=
  { fwupdOk := true, inputs := baseInputs, api := fun _ _ => .ok ms err l,
    download := .ok, devices := .ok [], flash := some 0, removeOk := true }

/-- Concrete run for claim C8, parametric in the enumerated device list. -/
def c8Env (ds : List Device) : Env :=
  { fwupdOk := true, inputs := baseInputs, api := fun _ _ => .ok 1 none [fwX],
    download := .ok, devices := .ok ds, flash := some 0, removeOk := true }

/-- Concrete run for claim C10, parametric in the flash-confirmation answer
(the final `n` answers the cleanup prompt, so a cancellation also exercises
the deletion path). -/
def c10Env (s : PyStr) : Env :=
  { fwupdOk := true, inputs := [['1'], ['n'], ['1'], [], s, ['n']],
    api := fun _ _ => .ok 1 none [fwX], download := .ok,
    devices := .ok [dev8], flash := some 0, removeOk := true }

end Updater

/-! ### Claim theorems: orchestrator failure handling and confirmations -/

/-- Claim C7: a firmware-fetch response that is non-success (`msgState ≠ 1`)
or carries an empty firmware list makes the orchestrator print the cause,
perform no retry (exactly one API request) and no download, and exit with
code 1. -/
theorem claim_C7_fetch_failure_exits (ms : Int) (err : Option PyStr)
    (l : List Updater.Firmware) (h : ms ≠ 1 ∨ l = []) :
    (Updater.updaterMain (Updater.c7Env ms err l)).outcome = .exit 1 ∧
    (Updater.updaterMain (Updater.c7Env ms err l)).apiCalls = 1 ∧
    (Updater.updaterMain (Updater.c7Env ms err l)).downloadCalls = 0 ∧
    (Updater.updaterMain (Updater.c7Env ms err l)).flashCalls = 0 ∧
    Updater.Msg.failedFetchExiting ∈
      (Updater.updaterMain (Updater.c7Env ms err l)).prints := by
  have hstage : Updater.updaterMain (Updater.c7Env ms err l) =
      Updater.afterFetch (Updater.c7Env ms err l) [['1'], [], ['y'], ['y']]
        Updater.acc0 (Updater.fetch_firmware_list (.ok ms err l)) := rfl
  by_cases hms : ms = 1
  · subst hms
    have hl : l = [] := h.resolve_left (by simp)
    subst hl
    rw [hstage]
    exact ⟨rfl, rfl, rfl, rfl, by
      show Updater.Msg.failedFetchExiting ∈ [Updater.Msg.failedFetchExiting]
      simp⟩
  · have hfetch : Updater.fetch_firmware_list (.ok ms err l) =
        (none, [.errorFromApi err]) := by
      simp [Updater.fetch_firmware_list, hms]
    rw [hstage, hfetch]
    refine ⟨rfl, rfl, rfl, rfl, ?_⟩
    show Updater.Msg.failedFetchExiting ∈
      [Updater.Msg.errorFromApi err, Updater.Msg.failedFetchExiting]
    simp

/-- Witness for claim C7's theorem at a concrete input. -/
theorem claim_C7_fetch_failure_exits_witness :
    (Updater.updaterMain (Updater.c7Env 0 none [])).outcome = .exit 1 ∧
    (Updater.updaterMain (Updater.c7Env 0 none [])).apiCalls = 1 ∧
    (Updater.updaterMain (Updater.c7Env 0 none [])).downloadCalls = 0 ∧
    (Updater.updaterMain (Updater.c7Env 0 none [])).flashCalls = 0 ∧
    Updater.Msg.failedFetchExiting ∈
      (Updater.updaterMain (Updater.c7Env 0 none [])).prints :=
  claim_C7_fetch_failure_exits 0 none [] (Or.inl (by decide))

/-- Claim C8: when the device enumeration contains no entry whose vendor
string case-insensitively contains the brand token, the orchestrator reports
that no device was found, offers cleanup of the downloaded file, never
invokes the flashing tool, and exits with code 1 rather than crashing. -/
theorem claim_C8_no_device_found (ds : List Updater.Device)
    (h : ∀ d ∈ ds, Updater.vendorMatches (d.vendor.getD []) = false) :
    (Updater.updaterMain (Updater.c8Env ds)).outcome = .exit 1 ∧
    (Updater.updaterMain (Updater.c8Env ds)).flashCalls = 0 ∧
    (Updater.updaterMain (Updater.c8Env ds)).cleanupCalls = 1 ∧
    Updater.Msg.noGamepadFound ∈
      (Updater.updaterMain (Updater.c8Env ds)).prints ∧
    Updater.Msg.couldNotFindGamepad ∈
      (Updater.updaterMain (Updater.c8Env ds)).prints := by
  have hstage : Updater.updaterMain (Updater.c8Env ds) =
      Updater.stageDevice (Updater.c8Env ds) [['y'], ['y']]
        ⟨[], 1, 1, 0, 0, 0⟩ := rfl
  have hdev : Updater.get_gamepad_device_id (Updater.c8Env ds).devices =
      (none, [.noGamepadFound]) := by
    show Updater.get_gamepad_device_id (.ok ds) = (none, [.noGamepadFound])
    simp [Updater.get_gamepad_device_id, Updater.findDevice_none h]
  rw [hstage, Updater.stageDevice_notfound _ _ _ _ hdev]
  refine ⟨rfl, rfl, rfl, ?_, ?_⟩
  · show Updater.Msg.noGamepadFound ∈
      [Updater.Msg.noGamepadFound, Updater.Msg.couldNotFindGamepad]
    simp
  · show Updater.Msg.couldNotFindGamepad ∈
      [Updater.Msg.noGamepadFound, Updater.Msg.couldNotFindGamepad]
    simp

/-- Witness for claim C8's theorem at a concrete input: one enumerated device
of another vendor. -/
theorem claim_C8_no_device_found_witness :
    (Updater.updaterMain
        (Updater.c8Env [⟨some ['S','o','n','y'], some ['i','d']⟩])).outcome =
      .exit 1 ∧
    (Updater.updaterMain
        (Updater.c8Env [⟨some ['S','o','n','y'], some ['i','d']⟩])).flashCalls = 0 ∧
    (Updater.updaterMain
        (Updater.c8Env [⟨some ['S','o','n','y'], some ['i','d']⟩])).cleanupCalls = 1 ∧
    Updater.Msg.noGamepadFound ∈
      (Updater.updaterMain
        (Updater.c8Env [⟨some ['S','o','n','y'], some ['i','d']⟩])).prints ∧
    Updater.Msg.couldNotFindGamepad ∈
      (Updater.updaterMain
        (Updater.c8Env [⟨some ['S','o','n','y'], some ['i','d']⟩])).prints :=
  claim_C8_no_device_found [⟨some ['S','o','n','y'], some ['i','d']⟩]
    (by decide)

/-- Claim C10: every yes/no confirmation treats only the exact answer `y`
(after stripping and lowercasing) as affirmative: the cleanup prompt attempts
deletion exactly when the answer is not `y`, and at the flash-confirmation
prompt any other answer (including the empty string) cancels the update —
exit 0, no flash, `Update cancelled.` printed, and the firmware file deleted
at the subsequent cleanup prompt answered `n`; answering `y` does flash. -/
theorem claim_C10_confirmation_semantics :
    (∀ (s : PyStr) (rest : List PyStr) (rok : Bool),
      (Updater.cleanup_firmware_file rok (s :: rest)).map
          (fun cr => cr.removeAttempted) =
        some (decide (pyLower (pyStrip s) ≠ ['y']))) ∧
    (∀ s : PyStr, pyLower (pyStrip s) ≠ ['y'] →
      (Updater.updaterMain (Updater.c10Env s)).outcome = .exit 0 ∧
      (Updater.updaterMain (Updater.c10Env s)).flashCalls = 0 ∧
      Updater.Msg.updateCancelled ∈
        (Updater.updaterMain (Updater.c10Env s)).prints ∧
      (Updater.updaterMain (Updater.c10Env s)).removeAttempts = 1) ∧
    (Updater.updaterMain (Updater.c10Env ['y'])).flashCalls = 1 := by
  refine ⟨?_, ?_, by decide⟩
  · intro s rest rok
    by_cases h : pyLower (pyStrip s) ≠ ['y']
    · cases rok <;> simp [Updater.cleanup_firmware_file, h]
    · simp [Updater.cleanup_firmware_file, h]
  · intro s h
    have hstage : Updater.updaterMain (Updater.c10Env s) =
        Updater.stageConfirm (Updater.c10Env s) (s :: [['n']])
          ⟨[], 1, 1, 0, 0, 0⟩ := rfl
    rw [hstage]
    simp only [Updater.stageConfirm]
    rw [if_pos h]
    refine ⟨rfl, rfl, ?_, rfl⟩
    show Updater.Msg.updateCancelled ∈
      [Updater.Msg.updateCancelled, Updater.Msg.removedFile]
    simp

/-- Witness for claim C10's theorem at concrete inputs (the empty answer). -/
theorem claim_C10_confirmation_semantics_witness :
    (Updater.cleanup_firmware_file true ([] :: [])).map
        (fun cr => cr.removeAttempted) =
      some (decide (pyLower (pyStrip ([] : PyStr)) ≠ ['y'])) ∧
    ((Updater.updaterMain (Updater.c10Env [])).outcome = .exit 0 ∧
      (Updater.updaterMain (Updater.c10Env [])).flashCalls = 0 ∧
      Updater.Msg.updateCancelled ∈
        (Updater.updaterMain (Updater.c10Env [])).prints ∧
      (Updater.updaterMain (Updater.c10Env [])).removeAttempts = 1) := by
  refine ⟨claim_C10_confirmation_semantics.1 [] [] true, ?_⟩
  exact claim_C10_confirmation_semantics.2.1 [] (by decide)
